import Mathlib

/-!
Shallow embedding of the core of `mourse` (src/clicker.rs, src/mouse_mover.rs,
src/mouse_button.rs, src/app.rs): two toggleable background runners (an auto
clicker and a random mouse mover), their configuration records, their control
surface (start / stop / counters / setters), the loop-body computation of one
iteration (injection attempt, counter increment, sleep-duration draw), and the
application-level config loading of `MourseApp`.

Conventions of the embedding:
* `u64` values are `Nat`; where the Rust release-mode arithmetic wraps
  (`fetch_add` on the counter, `interval + extra` in the delay computation)
  the embedding takes the result `% u64Mod` with `u64Mod = 2^64`.
* `i32` values (`max_distance`, the displacement components) are `Int`.
* `rand`'s range sampling (`rng.gen_range(lo..=hi)` in clicker.rs,
  `rng.random_range(lo..=hi)` in mouse_mover.rs) panics on an empty range
  (`lo > hi`); the embedding returns `Option`, with `none` standing for the
  panic that aborts the loop thread.  For a nonempty range the sample is
  `lo + r % (hi - lo + 1)` where `r` is the (arbitrary) raw random value, so
  every value of `[lo, hi]` is reachable and nothing outside it is.
* The loop thread of a running runner owns a by-value clone of the config
  taken at spawn time (`let config = self.config.clone();` before
  `thread::spawn`); the embedding records this clone in a `snapshot` field,
  and a ghost `spawned` counter records how many times `thread::spawn` ran.
* The shared atomics (`is_clicking`/`is_moving`, `click_count`/`move_count`)
  are plain fields: all claims treated here are about the sequential
  semantics of the control surface (the Rust methods take `&mut self`).
-/

/-- Modulus of Rust `u64` arithmetic. -/
def u64Mod : Nat := 2 ^ 64

/-- `rand` 0.8 `rng.gen_range(lo..=hi)` on `u64` (clicker.rs line 74):
for `lo ≤ hi` a uniform sample `lo + r % (hi - lo + 1)`; for `lo > hi`
the range is empty and the call panics (`none`). -/
def gen_range (lo hi r : Nat) : Option Nat :=
  if lo ≤ hi then some (lo + r % (hi - lo + 1)) else none

/-- `rand` 0.9 `rng.random_range(lo..=hi)` on `u64` (mouse_mover.rs lines
72-74): same sampling and same panic on an empty range as `gen_range`. -/
def random_range (lo hi r : Nat) : Option Nat :=
  if lo ≤ hi then some (lo + r % (hi - lo + 1)) else none

/-- `rand` 0.9 `rng.random_range(lo..=hi)` on `i32` (mouse_mover.rs lines
65-66): uniform sample of the inclusive range, panic (`none`) when empty. -/
def random_range_int (lo hi : Int) (r : Nat) : Option Int :=
  if lo ≤ hi then some (lo + (r : Int) % (hi - lo + 1)) else none

/-- src/mouse_button.rs: `SerializableMouseButton`. -/
inductive SerializableMouseButton where
  | Left
  | Middle
  | Right
deriving DecidableEq

/-- src/clicker.rs: `ClickerConfig`. -/
structure ClickerConfig where
  click_interval_ms : Nat
  mouse_button : SerializableMouseButton
  random_delay_enabled : Bool
  random_delay_min_ms : Nat
  random_delay_max_ms : Nat
deriving DecidableEq

/-- src/clicker.rs: `impl Default for ClickerConfig`. -/
def ClickerConfig.default : ClickerConfig :=
  { click_interval_ms := 1000
    mouse_button := SerializableMouseButton.Left
    random_delay_enabled := false
    random_delay_min_ms := 0
    random_delay_max_ms := 500 }

/-- src/mouse_mover.rs: `MouseMoverConfig`. -/
structure MouseMoverConfig where
  move_interval_ms : Nat
  max_distance : Int
  random_delay_enabled : Bool
  random_delay_min_ms : Nat
  random_delay_max_ms : Nat
deriving DecidableEq

/-- src/mouse_mover.rs: `impl Default for MouseMoverConfig`. -/
def MouseMoverConfig.default : MouseMoverConfig :=
  { move_interval_ms := 100
    max_distance := 100
    random_delay_enabled := false
    random_delay_min_ms := 0
    random_delay_max_ms := 200 }

/-- The `let delay = ...` computation of the clicker loop body (clicker.rs
lines 72-77): `click_interval_ms` plus, when random delay is enabled, a
`gen_range` draw over `[random_delay_min_ms, random_delay_max_ms]`; the u64
sum wraps.  `none` is the panic of `gen_range` on an empty range. -/
def click_delay (config : ClickerConfig) (r : Nat) : Option Nat :=
  if config.random_delay_enabled then
    (gen_range config.random_delay_min_ms config.random_delay_max_ms r).map
      (fun x => (config.click_interval_ms + x) % u64Mod)
  else
    some config.click_interval_ms

/-- The `let delay = ...` computation of the mover loop body (mouse_mover.rs
lines 70-77), identical in shape to `click_delay` but using `random_range`. -/
def move_delay (config : MouseMoverConfig) (r : Nat) : Option Nat :=
  if config.random_delay_enabled then
    (random_range config.random_delay_min_ms config.random_delay_max_ms r).map
      (fun x => (config.move_interval_ms + x) % u64Mod)
  else
    some config.move_interval_ms

/-- src/clicker.rs: `Clicker`, with the loop thread's by-value config clone
(`snapshot`, present once a loop has been spawned) and a ghost count of
`thread::spawn` calls (`spawned`). -/
structure Clicker where
  config : ClickerConfig
  is_clicking : Bool
  click_count : Nat
  spawned : Nat
  snapshot : Option ClickerConfig
deriving DecidableEq

/-- src/clicker.rs: `Clicker::new`. -/
def Clicker.new (config : ClickerConfig) : Clicker :=
  { config := config
    is_clicking := false
    click_count := 0
    spawned := 0
    snapshot := none }

/-- src/clicker.rs: `impl Default for Clicker`. -/
def Clicker.default : Clicker := Clicker.new ClickerConfig.default

/-- src/clicker.rs lines 53-83: `Clicker::start_clicking`.  If the flag is
already set this does nothing; otherwise it sets the flag, clones the current
config for the new loop thread and spawns it. -/
def Clicker.start_clicking (c : Clicker) : Clicker :=
  if c.is_clicking then c
  else
    { c with
      is_clicking := true
      spawned := c.spawned + 1
      snapshot := some c.config }

/-- src/clicker.rs: `Clicker::stop_clicking` (stores `false`; fire-and-forget,
the loop thread is not joined so its snapshot survives until it exits). -/
def Clicker.stop_clicking (c : Clicker) : Clicker :=
  { c with is_clicking := false }

/-- src/clicker.rs: `Clicker::reset_click_count`. -/
def Clicker.reset_click_count (c : Clicker) : Clicker :=
  { c with click_count := 0 }

/-- src/clicker.rs: `Clicker::set_interval`. -/
def Clicker.set_interval (c : Clicker) (interval : Nat) : Clicker :=
  { c with config := { c.config with click_interval_ms := interval } }

/-- src/clicker.rs: `Clicker::set_mouse_button`. -/
def Clicker.set_mouse_button (c : Clicker) (button : SerializableMouseButton) : Clicker :=
  { c with config := { c.config with mouse_button := button } }

/-- src/clicker.rs: `Clicker::set_random_delay`. -/
def Clicker.set_random_delay (c : Clicker) (enabled : Bool) : Clicker :=
  { c with config := { c.config with random_delay_enabled := enabled } }

/-- src/clicker.rs: `Clicker::set_random_delay_range`. -/
def Clicker.set_random_delay_range (c : Clicker) (lo hi : Nat) : Clicker :=
  { c with config := { c.config with random_delay_min_ms := lo, random_delay_max_ms := hi } }

/-- src/clicker.rs: `Clicker::get_config`. -/
def Clicker.get_config (c : Clicker) : ClickerConfig := c.config

/-- src/clicker.rs: `Clicker::set_config`. -/
def Clicker.set_config (c : Clicker) (config : ClickerConfig) : Clicker :=
  { c with config := config }

/-- One pass of the clicker loop body (clicker.rs lines 65-80) as seen with
the thread's config clone: the injection attempt (`enigo.button`) is made and
its error, if any, is printed (`logged`); the counter is incremented with the
wrapping `fetch_add`; the sleep duration is drawn (`sleep = none` is the
`gen_range` panic, which kills the thread after the increment). -/
structure ClickIterResult where
  logged : Bool
  count' : Nat
  sleep : Option Nat
deriving DecidableEq

/-- The clicker loop body, parameterised by the spawn-time config clone, the
success of the injection call and the raw random value of the draw. -/
def click_iteration (config : ClickerConfig) (inject_ok : Bool) (count r : Nat) :
    ClickIterResult :=
  { logged := !inject_ok
    count' := (count + 1) % u64Mod
    sleep := click_delay config r }

/-- src/mouse_mover.rs: `MouseMover`, embedded like `Clicker` (thread-held
config clone in `snapshot`, ghost `spawned` count of `thread::spawn`). -/
structure MouseMover where
  config : MouseMoverConfig
  is_moving : Bool
  move_count : Nat
  spawned : Nat
  snapshot : Option MouseMoverConfig
deriving DecidableEq

/-- src/mouse_mover.rs: `MouseMover::new`. -/
def MouseMover.new (config : MouseMoverConfig) : MouseMover :=
  { config := config
    is_moving := false
    move_count := 0
    spawned := 0
    snapshot := none }

/-- src/mouse_mover.rs: `impl Default for MouseMover`. -/
def MouseMover.default : MouseMover := MouseMover.new MouseMoverConfig.default

/-- src/mouse_mover.rs lines 52-83: `MouseMover::start_moving`. -/
def MouseMover.start_moving (m : MouseMover) : MouseMover :=
  if m.is_moving then m
  else
    { m with
      is_moving := true
      spawned := m.spawned + 1
      snapshot := some m.config }

/-- src/mouse_mover.rs: `MouseMover::stop_moving`. -/
def MouseMover.stop_moving (m : MouseMover) : MouseMover :=
  { m with is_moving := false }

/-- src/mouse_mover.rs: `MouseMover::reset_move_count`. -/
def MouseMover.reset_move_count (m : MouseMover) : MouseMover :=
  { m with move_count := 0 }

/-- src/mouse_mover.rs: `MouseMover::set_interval`. -/
def MouseMover.set_interval (m : MouseMover) (interval : Nat) : MouseMover :=
  { m with config := { m.config with move_interval_ms := interval } }

/-- src/mouse_mover.rs: `MouseMover::set_max_distance` (no validation of the
sign of `distance`). -/
def MouseMover.set_max_distance (m : MouseMover) (distance : Int) : MouseMover :=
  { m with config := { m.config with max_distance := distance } }

/-- src/mouse_mover.rs: `MouseMover::set_random_delay`. -/
def MouseMover.set_random_delay (m : MouseMover) (enabled : Bool) : MouseMover :=
  { m with config := { m.config with random_delay_enabled := enabled } }

/-- src/mouse_mover.rs: `MouseMover::set_random_delay_range`. -/
def MouseMover.set_random_delay_range (m : MouseMover) (lo hi : Nat) : MouseMover :=
  { m with config := { m.config with random_delay_min_ms := lo, random_delay_max_ms := hi } }

/-- src/mouse_mover.rs: `MouseMover::get_config`. -/
def MouseMover.get_config (m : MouseMover) : MouseMoverConfig := m.config

/-- src/mouse_mover.rs: `MouseMover::set_config`. -/
def MouseMover.set_config (m : MouseMover) (config : MouseMoverConfig) : MouseMover :=
  { m with config := config }

/-- One pass of the mover loop body (mouse_mover.rs lines 64-80): the two
displacement draws, the `enigo.move_mouse` call whose result is discarded
with `let _ = ...` (so `logged` is always `false`), the wrapping counter
increment and the sleep-duration draw.  The whole result is `none` when a
displacement draw panics, which happens before the increment; a `sleep` of
`none` is the later panic of the delay draw, after the increment. -/
structure MoveIterResult where
  dx : Int
  dy : Int
  logged : Bool
  count' : Nat
  sleep : Option Nat
deriving DecidableEq

/-- The mover loop body, parameterised by the spawn-time config clone, the
success of the injection call and the raw random values of the three draws. -/
def move_iteration (config : MouseMoverConfig) (inject_ok : Bool)
    (count r1 r2 r3 : Nat) : Option MoveIterResult :=
  match random_range_int (-config.max_distance) config.max_distance r1 with
  | none => none
  | some dx =>
    match random_range_int (-config.max_distance) config.max_distance r2 with
    | none => none
    | some dy =>
      some
        { dx := dx
          dy := dy
          logged := false
          count' := (count + 1) % u64Mod
          sleep := move_delay config r3 }

/-- src/app.rs: the two runners of `MourseApp` (the UI and hotkey fields are
platform glue and carry no state the claims mention). -/
structure MourseApp where
  clicker : Clicker
  mouse_mover : MouseMover

/-- src/app.rs lines 41-48: `MourseApp::load_config`.  `file_content` is the
result of `fs::read_to_string` (`none` = read error) and `ron_from_str` is
the external `ron::from_str` deserializer (`none` = parse error); only when
both succeed are the configs replaced, otherwise the app is untouched. -/
def MourseApp.load_config (app : MourseApp) (file_content : Option String)
    (ron_from_str : String → Option (ClickerConfig × MouseMoverConfig)) : MourseApp :=
  match file_content with
  | none => app
  | some s =>
    match ron_from_str s with
    | none => app
    | some (clicker_config, mover_config) =>
      { app with
        clicker := app.clicker.set_config clicker_config
        mouse_mover := app.mouse_mover.set_config mover_config }

/-- src/app.rs lines 71-83: `impl Default for MourseApp` builds the app from
`Clicker::default` and `MouseMover::default` and then runs `load_config`. -/
def MourseApp.default (file_content : Option String)
    (ron_from_str : String → Option (ClickerConfig × MouseMoverConfig)) : MourseApp :=
  MourseApp.load_config
    { clicker := Clicker.default, mouse_mover := MouseMover.default }
    file_content ron_from_str

/-! ### Helper lemmas -/

theorem gen_range_eq_some (lo hi r : Nat) (h : lo ≤ hi) :
    ∃ e, lo ≤ e ∧ e ≤ hi ∧ gen_range lo hi r = some e := by
  refine ⟨lo + r % (hi - lo + 1), Nat.le_add_right _ _, ?_, ?_⟩
  · have hm : r % (hi - lo + 1) < hi - lo + 1 := Nat.mod_lt _ (Nat.succ_pos _)
    omega
  · simp [gen_range, h]

theorem random_range_eq_some (lo hi r : Nat) (h : lo ≤ hi) :
    ∃ e, lo ≤ e ∧ e ≤ hi ∧ random_range lo hi r = some e := by
  refine ⟨lo + r % (hi - lo + 1), Nat.le_add_right _ _, ?_, ?_⟩
  · have hm : r % (hi - lo + 1) < hi - lo + 1 := Nat.mod_lt _ (Nat.succ_pos _)
    omega
  · simp [random_range, h]

theorem gen_range_self (lo r : Nat) : gen_range lo lo r = some lo := by
  simp [gen_range, Nat.mod_one]

theorem random_range_self (lo r : Nat) : random_range lo lo r = some lo := by
  simp [random_range, Nat.mod_one]

theorem Clicker.start_clicking_click_count (c : Clicker) :
    c.start_clicking.click_count = c.click_count := by
  unfold Clicker.start_clicking
  split <;> rfl

theorem MouseMover.start_moving_move_count (m : MouseMover) :
    m.start_moving.move_count = m.move_count := by
  unfold MouseMover.start_moving
  split <;> rfl

/-- A concrete clicker with a live loop: flag set, one spawned thread holding
the default config as its snapshot, some clicks already counted. -/
def runningClicker : Clicker :=
  { config := ClickerConfig.default
    is_clicking := true
    click_count := 5
    spawned := 1
    snapshot := some ClickerConfig.default }

/-- A concrete mover with a live loop, analogous to `runningClicker`. -/
def runningMover : MouseMover :=
  { config := MouseMoverConfig.default
    is_moving := true
    move_count := 7
    spawned := 1
    snapshot := some MouseMoverConfig.default }

/-! ### Claims -/

/-- Claim C1: the claim says the random-extra-delay draw yields a defined
result (zero-width range at min) for every pair (min, max), even when
`random_delay_max_ms < random_delay_min_ms`.  The code does not defend the
draw: with random delay enabled and min = 10, max = 5, both runners' delay
computations call the range sampler on the empty range `10..=5`, which
panics and aborts the background thread (modelled as `none`), contradicting
the claim; the spec explicitly requires the defence, so this is a bug of the
code. -/
theorem c1_inverted_range_draw_panics :
    click_delay
      { click_interval_ms := 1000
        mouse_button := SerializableMouseButton.Left
        random_delay_enabled := true
        random_delay_min_ms := 10
        random_delay_max_ms := 5 } 0 = none ∧
    move_delay
      { move_interval_ms := 100
        max_distance := 100
        random_delay_enabled := true
        random_delay_min_ms := 10
        random_delay_max_ms := 5 } 0 = none := by
  constructor <;> rfl

/-- Claim C3: when the running flag is already true, `start` of either runner
is an idempotent no-op: it spawns no second loop (ghost `spawned` count
unchanged), leaves the flag true and leaves the counter, the configuration
and the loop snapshot unchanged — the whole runner state is unchanged. -/
theorem c3_start_noop_when_running (c : Clicker) (m : MouseMover)
    (hc : c.is_clicking = true) (hm : m.is_moving = true) :
    c.start_clicking = c ∧ m.start_moving = m := by
  constructor
  · simp [Clicker.start_clicking, hc]
  · simp [MouseMover.start_moving, hm]

/-- Witness for C3 at the concrete running runners. -/
theorem c3_start_noop_when_running_witness :
    runningClicker.is_clicking = true ∧ runningMover.is_moving = true ∧
    runningClicker.start_clicking = runningClicker ∧
    runningMover.start_moving = runningMover :=
  ⟨rfl, rfl,
    (c3_start_noop_when_running runningClicker runningMover rfl rfl).1,
    (c3_start_noop_when_running runningClicker runningMover rfl rfl).2⟩

/-- Claim C5: `reset_click_count` / `reset_move_count` set the counter to 0
in every state, and every other operation of the control surface (start,
stop, every setter, `set_config`) leaves the counter unchanged, so the reset
operations are the only counter-resetting operations of the interface. -/
theorem c5_reset_count_zero (c : Clicker) (m : MouseMover)
    (k : ClickerConfig) (k2 : MouseMoverConfig) (n lo hi : Nat)
    (b : SerializableMouseButton) (e : Bool) (d : Int) :
    c.reset_click_count.click_count = 0 ∧
    m.reset_move_count.move_count = 0 ∧
    c.start_clicking.click_count = c.click_count ∧
    c.stop_clicking.click_count = c.click_count ∧
    (c.set_config k).click_count = c.click_count ∧
    (c.set_interval n).click_count = c.click_count ∧
    (c.set_mouse_button b).click_count = c.click_count ∧
    (c.set_random_delay e).click_count = c.click_count ∧
    (c.set_random_delay_range lo hi).click_count = c.click_count ∧
    m.start_moving.move_count = m.move_count ∧
    m.stop_moving.move_count = m.move_count ∧
    (m.set_config k2).move_count = m.move_count ∧
    (m.set_interval n).move_count = m.move_count ∧
    (m.set_max_distance d).move_count = m.move_count ∧
    (m.set_random_delay e).move_count = m.move_count ∧
    (m.set_random_delay_range lo hi).move_count = m.move_count :=
  ⟨rfl, rfl, c.start_clicking_click_count, rfl, rfl, rfl, rfl, rfl, rfl,
    m.start_moving_move_count, rfl, rfl, rfl, rfl, rfl, rfl⟩

/-- Claim C6: neither `stop` nor a subsequent `start` modifies the action
counter, so stopping and restarting a runner resumes counting at the value
it had: the counter after stop-then-start equals the counter before. -/
theorem c6_stop_start_preserves_count (c : Clicker) (m : MouseMover) :
    c.stop_clicking.start_clicking.click_count = c.click_count ∧
    c.stop_clicking.click_count = c.click_count ∧
    c.start_clicking.click_count = c.click_count ∧
    m.stop_moving.start_moving.move_count = m.move_count ∧
    m.stop_moving.move_count = m.move_count ∧
    m.start_moving.move_count = m.move_count :=
  ⟨c.stop_clicking.start_clicking_click_count, rfl, c.start_clicking_click_count,
    m.stop_moving.start_moving_move_count, rfl, m.start_moving_move_count⟩

/-- Claim C2: a running loop works off the config clone captured by value
when `start` succeeded.  `start` from the stopped state captures the current
config as the loop snapshot, and every later setter (`set_config`,
`set_interval`, `set_mouse_button` / `set_max_distance`, `set_random_delay`,
`set_random_delay_range`) changes only the runner's own `config` field and
leaves the in-flight loop's snapshot — hence its interval, button or max
distance, and random-delay parameters — unchanged, without stopping the
loop. -/
theorem c2_config_snapshot_isolated (c c0 : Clicker) (m m0 : MouseMover)
    (hc : c.is_clicking = true) (hm : m.is_moving = true)
    (h0c : c0.is_clicking = false) (h0m : m0.is_moving = false)
    (k : ClickerConfig) (k2 : MouseMoverConfig) (n lo hi : Nat)
    (b : SerializableMouseButton) (e : Bool) (d : Int) :
    c0.start_clicking.snapshot = some c0.config ∧
    m0.start_moving.snapshot = some m0.config ∧
    (c.set_config k).snapshot = c.snapshot ∧
    (c.set_interval n).snapshot = c.snapshot ∧
    (c.set_mouse_button b).snapshot = c.snapshot ∧
    (c.set_random_delay e).snapshot = c.snapshot ∧
    (c.set_random_delay_range lo hi).snapshot = c.snapshot ∧
    (c.set_config k).is_clicking = c.is_clicking ∧
    (m.set_config k2).snapshot = m.snapshot ∧
    (m.set_interval n).snapshot = m.snapshot ∧
    (m.set_max_distance d).snapshot = m.snapshot ∧
    (m.set_random_delay e).snapshot = m.snapshot ∧
    (m.set_random_delay_range lo hi).snapshot = m.snapshot ∧
    (m.set_config k2).is_moving = m.is_moving := by
  refine ⟨?_, ?_, rfl, rfl, rfl, rfl, rfl, rfl, rfl, rfl, rfl, rfl, rfl, rfl⟩
  · simp [Clicker.start_clicking, h0c]
  · simp [MouseMover.start_moving, h0m]

/-- Witness for C2 at concrete runners: a running clicker keeps its loop
snapshot across a setter call, and a fresh start captures the config. -/
theorem c2_config_snapshot_isolated_witness :
    runningClicker.is_clicking = true ∧
    (runningClicker.set_interval 42).snapshot = runningClicker.snapshot ∧
    Clicker.default.start_clicking.snapshot = some Clicker.default.config :=
  ⟨rfl,
    (c2_config_snapshot_isolated runningClicker Clicker.default runningMover
      MouseMover.default rfl rfl rfl rfl ClickerConfig.default
      MouseMoverConfig.default 42 0 0 SerializableMouseButton.Left false
      3).2.2.2.1,
    (c2_config_snapshot_isolated runningClicker Clicker.default runningMover
      MouseMover.default rfl rfl rfl rfl ClickerConfig.default
      MouseMoverConfig.default 42 0 0 SerializableMouseButton.Left false 3).1⟩

/-- Auxiliary to C4: when random delay is enabled and the range is sane, the
clicker's delay is the interval plus some value of the inclusive range. -/
theorem click_delay_enabled (cfg : ClickerConfig) (r : Nat)
    (he : cfg.random_delay_enabled = true)
    (hle : cfg.random_delay_min_ms ≤ cfg.random_delay_max_ms)
    (hov : cfg.click_interval_ms + cfg.random_delay_max_ms < u64Mod) :
    ∃ e, cfg.random_delay_min_ms ≤ e ∧ e ≤ cfg.random_delay_max_ms ∧
      click_delay cfg r = some (cfg.click_interval_ms + e) := by
  obtain ⟨e, h1, h2, h3⟩ := gen_range_eq_some _ _ r hle
  refine ⟨e, h1, h2, ?_⟩
  simp only [click_delay, he, if_true, h3, Option.map_some']
  rw [Nat.mod_eq_of_lt (by omega)]

/-- Auxiliary to C4: the mover analogue of `click_delay_enabled`. -/
theorem move_delay_enabled (cfg : MouseMoverConfig) (r : Nat)
    (he : cfg.random_delay_enabled = true)
    (hle : cfg.random_delay_min_ms ≤ cfg.random_delay_max_ms)
    (hov : cfg.move_interval_ms + cfg.random_delay_max_ms < u64Mod) :
    ∃ e, cfg.random_delay_min_ms ≤ e ∧ e ≤ cfg.random_delay_max_ms ∧
      move_delay cfg r = some (cfg.move_interval_ms + e) := by
  obtain ⟨e, h1, h2, h3⟩ := random_range_eq_some _ _ r hle
  refine ⟨e, h1, h2, ?_⟩
  simp only [move_delay, he, if_true, h3, Option.map_some']
  rw [Nat.mod_eq_of_lt (by omega)]

/-- Claim C4: the sleep duration of one iteration of either runner is the
interval when random delay is disabled; when it is enabled with a sane range,
it is the interval plus a value of the inclusive range
`[random_delay_min_ms, random_delay_max_ms]`; with min = max it is exactly
interval + min; with min = 0 and max = 100 every defined delay lies in
`[interval, interval + 100]`.  The overflow hypotheses pin the u64 sums
below the wrap. -/
theorem c4_sleep_duration_range (cfg : ClickerConfig) (mcfg : MouseMoverConfig)
    (r s : Nat)
    (hov : cfg.click_interval_ms + cfg.random_delay_max_ms < u64Mod)
    (hmov : mcfg.move_interval_ms + mcfg.random_delay_max_ms < u64Mod) :
    (cfg.random_delay_enabled = false →
      click_delay cfg r = some cfg.click_interval_ms) ∧
    (cfg.random_delay_enabled = true →
      cfg.random_delay_min_ms ≤ cfg.random_delay_max_ms →
      ∃ e, cfg.random_delay_min_ms ≤ e ∧ e ≤ cfg.random_delay_max_ms ∧
        click_delay cfg r = some (cfg.click_interval_ms + e)) ∧
    (cfg.random_delay_enabled = true →
      cfg.random_delay_min_ms = cfg.random_delay_max_ms →
      click_delay cfg r = some (cfg.click_interval_ms + cfg.random_delay_min_ms)) ∧
    (cfg.random_delay_enabled = true → cfg.random_delay_min_ms = 0 →
      cfg.random_delay_max_ms = 100 →
      ∀ d, click_delay cfg r = some d →
        cfg.click_interval_ms ≤ d ∧ d ≤ cfg.click_interval_ms + 100) ∧
    (mcfg.random_delay_enabled = false →
      move_delay mcfg s = some mcfg.move_interval_ms) ∧
    (mcfg.random_delay_enabled = true →
      mcfg.random_delay_min_ms ≤ mcfg.random_delay_max_ms →
      ∃ e, mcfg.random_delay_min_ms ≤ e ∧ e ≤ mcfg.random_delay_max_ms ∧
        move_delay mcfg s = some (mcfg.move_interval_ms + e)) ∧
    (mcfg.random_delay_enabled = true →
      mcfg.random_delay_min_ms = mcfg.random_delay_max_ms →
      move_delay mcfg s = some (mcfg.move_interval_ms + mcfg.random_delay_min_ms)) ∧
    (mcfg.random_delay_enabled = true → mcfg.random_delay_min_ms = 0 →
      mcfg.random_delay_max_ms = 100 →
      ∀ d, move_delay mcfg s = some d →
        mcfg.move_interval_ms ≤ d ∧ d ≤ mcfg.move_interval_ms + 100) := by
  refine ⟨?_, ?_, ?_, ?_, ?_, ?_, ?_, ?_⟩
  · intro hd
    simp [click_delay, hd]
  · intro he hle
    exact click_delay_enabled cfg r he hle hov
  · intro he heq
    obtain ⟨e, h1, h2, h3⟩ := click_delay_enabled cfg r he (le_of_eq heq) hov
    have : e = cfg.random_delay_min_ms := by omega
    rw [h3, this]
  · intro he h0 h100 d hd
    obtain ⟨e, h1, h2, h3⟩ :=
      click_delay_enabled cfg r he (by omega) hov
    rw [h3] at hd
    have : d = cfg.click_interval_ms + e := by exact Option.some.inj hd.symm
    omega
  · intro hd
    simp [move_delay, hd]
  · intro he hle
    exact move_delay_enabled mcfg s he hle hmov
  · intro he heq
    obtain ⟨e, h1, h2, h3⟩ := move_delay_enabled mcfg s he (le_of_eq heq) hmov
    have : e = mcfg.random_delay_min_ms := by omega
    rw [h3, this]
  · intro he h0 h100 d hd
    obtain ⟨e, h1, h2, h3⟩ :=
      move_delay_enabled mcfg s he (by omega) hmov
    rw [h3] at hd
    have : d = mcfg.move_interval_ms + e := by exact Option.some.inj hd.symm
    omega

/-- Concrete clicker config for the C4 witness: 50 ms interval, random delay
enabled with min = max = 10. -/
def cfgW : ClickerConfig :=
  { click_interval_ms := 50
    mouse_button := SerializableMouseButton.Left
    random_delay_enabled := true
    random_delay_min_ms := 10
    random_delay_max_ms := 10 }

/-- Concrete mover config for the C4 witness: 30 ms interval, random delay
enabled with min = max = 10. -/
def mcfgW : MouseMoverConfig :=
  { move_interval_ms := 30
    max_distance := 100
    random_delay_enabled := true
    random_delay_min_ms := 10
    random_delay_max_ms := 10 }

/-- Witness for C4: with min = max = 10 the total delay is exactly the
interval plus 10 for both runners. -/
theorem c4_sleep_duration_range_witness :
    (cfgW.click_interval_ms + cfgW.random_delay_max_ms < u64Mod ∧
     mcfgW.move_interval_ms + mcfgW.random_delay_max_ms < u64Mod) ∧
    click_delay cfgW 7 = some 60 ∧ move_delay mcfgW 9 = some 40 := by
  have h := c4_sleep_duration_range cfgW mcfgW 7 9 (by decide) (by decide)
  exact ⟨⟨by decide, by decide⟩, h.2.2.1 rfl rfl, h.2.2.2.2.2.2.1 rfl rfl⟩

/-- Claim C7: with `max_distance = 0` both displacement draws sample the
one-point range `0..=0`, so the drawn vector is exactly (0, 0); the iteration
still succeeds, still increments the counter (wrapping `fetch_add`) and still
draws the same sleep duration — `move_delay` does not read `max_distance`, so
the cadence is identical to that of any other `max_distance`. -/
theorem c7_zero_max_distance (cfg : MouseMoverConfig) (h : cfg.max_distance = 0)
    (m : Int) (ok : Bool) (count r1 r2 r3 : Nat) :
    ∃ res : MoveIterResult,
      move_iteration cfg ok count r1 r2 r3 = some res ∧
      res.dx = 0 ∧ res.dy = 0 ∧
      res.count' = (count + 1) % u64Mod ∧
      res.sleep = move_delay cfg r3 ∧
      move_delay { cfg with max_distance := m } r3 = move_delay cfg r3 := by
  have hr : ∀ r : Nat, random_range_int (-cfg.max_distance) cfg.max_distance r = some 0 := by
    intro r
    simp [random_range_int, h, Int.emod_one]
  refine ⟨{ dx := 0
            dy := 0
            logged := false
            count' := (count + 1) % u64Mod
            sleep := move_delay cfg r3 }, ?_, rfl, rfl, rfl, rfl, rfl⟩
  unfold move_iteration
  rw [hr r1, hr r2]

/-- Concrete mover config for the C7 witness: zero max distance. -/
def cfg0 : MouseMoverConfig :=
  { move_interval_ms := 100
    max_distance := 0
    random_delay_enabled := false
    random_delay_min_ms := 0
    random_delay_max_ms := 200 }

/-- Witness for C7 at the concrete zero-distance config. -/
theorem c7_zero_max_distance_witness :
    cfg0.max_distance = 0 ∧
    ∃ res : MoveIterResult,
      move_iteration cfg0 true 3 5 6 7 = some res ∧
      res.dx = 0 ∧ res.dy = 0 ∧
      res.count' = (3 + 1) % u64Mod ∧
      res.sleep = move_delay cfg0 7 ∧
      move_delay { cfg0 with max_distance := 50 } 7 = move_delay cfg0 7 :=
  ⟨rfl, c7_zero_max_distance cfg0 rfl 50 true 3 5 6 7⟩

/-- Claim C8: at startup, a failed read or a failed parse of the persisted
config leaves both runners at their defaults (and `load_config` simply
returns, surfacing no error); only a successful read followed by a
successful parse replaces the configs, and then with exactly the parsed
values. -/
theorem c8_load_failure_keeps_defaults (file_content : Option String)
    (ron_from_str : String → Option (ClickerConfig × MouseMoverConfig)) :
    ((file_content = none ∨ ∃ s, file_content = some s ∧ ron_from_str s = none) →
      (MourseApp.default file_content ron_from_str).clicker.config = ClickerConfig.default ∧
      (MourseApp.default file_content ron_from_str).mouse_mover.config =
        MouseMoverConfig.default) ∧
    (∀ s cc mc, file_content = some s → ron_from_str s = some (cc, mc) →
      (MourseApp.default file_content ron_from_str).clicker.config = cc ∧
      (MourseApp.default file_content ron_from_str).mouse_mover.config = mc) := by
  constructor
  · rintro (h | ⟨s, hs, hp⟩)
    · subst h
      exact ⟨rfl, rfl⟩
    · subst hs
      simp only [MourseApp.default, MourseApp.load_config, hp]
      exact ⟨rfl, rfl⟩
  · rintro s cc mc hs hp
    subst hs
    simp only [MourseApp.default, MourseApp.load_config, hp]
    exact ⟨rfl, rfl⟩

/-- Witness for C8: an absent file leaves both default configs in place. -/
theorem c8_load_failure_keeps_defaults_witness :
    (MourseApp.default none (fun _ => none)).clicker.config = ClickerConfig.default ∧
    (MourseApp.default none (fun _ => none)).mouse_mover.config = MouseMoverConfig.default :=
  (c8_load_failure_keeps_defaults none (fun _ => none)).1 (Or.inl rfl)

/-- Counterexample to C9 as stated: in the mover the injection error is
discarded with `let _ = enigo.move_mouse(...)` (mouse_mover.rs line 67), so
an iteration whose injection call fails produces no log message — the claim
that the failure of either runner "is logged" is false for the mover. -/
theorem c9_mover_injection_failure_not_logged :
    (move_iteration MouseMoverConfig.default false 0 0 0 0).map MoveIterResult.logged =
      some false := by
  rfl

/-- Auxiliary to C9: whenever a mover iteration completes, it logged nothing,
incremented the counter and drew the usual sleep duration. -/
theorem move_iteration_some (cfg : MouseMoverConfig) (ok : Bool)
    (count r1 r2 r3 : Nat) (res : MoveIterResult)
    (h : move_iteration cfg ok count r1 r2 r3 = some res) :
    res.logged = false ∧ res.count' = (count + 1) % u64Mod ∧
    res.sleep = move_delay cfg r3 := by
  unfold move_iteration at h
  split at h
  · exact Option.noConfusion h
  · split at h
    · exact Option.noConfusion h
    · cases h
      exact ⟨rfl, rfl, rfl⟩

/-- Claim C9 amended: an injection failure is never an exit path of either
loop and the iteration still increments the counter and still sleeps; the
clicker logs the failure (`eprintln!`), but the mover silently discards the
error of `enigo.move_mouse`, so its iterations are bit-for-bit independent
of the injection outcome and log nothing. -/
theorem c9_injection_failure_nonfatal (cfg : ClickerConfig) (mcfg : MouseMoverConfig)
    (ok : Bool) (count mcount r r1 r2 r3 : Nat) :
    (click_iteration cfg false count r).logged = true ∧
    (click_iteration cfg true count r).logged = false ∧
    (click_iteration cfg ok count r).count' = (count + 1) % u64Mod ∧
    (click_iteration cfg ok count r).sleep = click_delay cfg r ∧
    move_iteration mcfg false mcount r1 r2 r3 = move_iteration mcfg true mcount r1 r2 r3 ∧
    (∀ res, move_iteration mcfg false mcount r1 r2 r3 = some res →
      res.logged = false ∧ res.count' = (mcount + 1) % u64Mod) := by
  refine ⟨rfl, rfl, rfl, rfl, rfl, ?_⟩
  intro res hres
  exact ⟨(move_iteration_some mcfg false mcount r1 r2 r3 res hres).1,
    (move_iteration_some mcfg false mcount r1 r2 r3 res hres).2.1⟩

/-- Witness for C9's amended theorem at concrete inputs. -/
theorem c9_injection_failure_nonfatal_witness :
    (click_iteration ClickerConfig.default false 0 0).logged = true ∧
    move_iteration MouseMoverConfig.default false 0 0 0 0 =
      move_iteration MouseMoverConfig.default true 0 0 0 0 :=
  ⟨(c9_injection_failure_nonfatal ClickerConfig.default MouseMoverConfig.default
      false 0 0 0 0 0 0).1,
    (c9_injection_failure_nonfatal ClickerConfig.default MouseMoverConfig.default
      false 0 0 0 0 0 0).2.2.2.2.1⟩

/-- Claim C10: `set_max_distance` and `set_config` accept a negative
`max_distance` without validation; with `max_distance < 0` the displacement
range `-max_distance..=max_distance` is empty so the draw panics
(`move_iteration` is `none`, the loop thread aborts), and with
`max_distance ≥ 0` the displacement draw is always defined. -/
theorem c10_negative_max_distance (m : MouseMover) (d : Int) (k : MouseMoverConfig)
    (cfg cfg2 : MouseMoverConfig) (hneg : cfg.max_distance < 0)
    (hpos : 0 ≤ cfg2.max_distance)
    (ok : Bool) (count r1 r2 r3 s : Nat) :
    (m.set_max_distance d).config.max_distance = d ∧
    (m.set_config k).config.max_distance = k.max_distance ∧
    move_iteration cfg ok count r1 r2 r3 = none ∧
    (random_range_int (-cfg2.max_distance) cfg2.max_distance s).isSome = true := by
  refine ⟨rfl, rfl, ?_, ?_⟩
  · have h1 : random_range_int (-cfg.max_distance) cfg.max_distance r1 = none := by
      unfold random_range_int
      rw [if_neg (by omega)]
    unfold move_iteration
    rw [h1]
  · unfold random_range_int
    rw [if_pos (by omega)]
    rfl

/-- Concrete mover config with a negative max distance for the C10 witness. -/
def cfgN : MouseMoverConfig :=
  { move_interval_ms := 100
    max_distance := -5
    random_delay_enabled := false
    random_delay_min_ms := 0
    random_delay_max_ms := 200 }

/-- Witness for C10: `max_distance = -5` is accepted by the setter and makes
the loop iteration panic, while the default (100) keeps the draw defined. -/
theorem c10_negative_max_distance_witness :
    cfgN.max_distance < 0 ∧ (0 : Int) ≤ MouseMoverConfig.default.max_distance ∧
    (MouseMover.default.set_max_distance (-5)).config.max_distance = -5 ∧
    move_iteration cfgN true 0 0 0 0 = none ∧
    (random_range_int (-MouseMoverConfig.default.max_distance)
      MouseMoverConfig.default.max_distance 0).isSome = true := by
  have h := c10_negative_max_distance MouseMover.default (-5) MouseMoverConfig.default
    cfgN MouseMoverConfig.default (by decide) (by decide) true 0 0 0 0 0
  exact ⟨by decide, by decide, h.1, h.2.2.1, h.2.2.2⟩
